import Mathlib

/-!
Verification of the receiptsage extraction pipeline and store-name
normalizer against their natural-language specification.

The pipeline lives in `src/scripts/receipt_processor.py`; the normalizer in
`store_utils.py`.  External collaborators (the OpenAI completion backend and
Python's `json.loads`) are modelled as explicit oracle parameters; everything
the repository's own code does (stripping, markdown cleanup, type checks,
control flow) is embedded directly.
-/

namespace ReceiptSage

/-! ## Python string primitives -/

/-- Whitespace characters stripped by Python's `str.strip()` (ASCII range). -/
def isPyWs (c : Char) : Bool :=
  c = ' ' || c = '\t' || c = '\n' || c = '\x0d' || c = '\x0b' || c = '\x0c'

/-- Python `str.strip()`. -/
def pyStrip (s : String) : String :=
  String.mk (((s.data.dropWhile isPyWs).reverse.dropWhile isPyWs).reverse)

/-- Python `str.startswith(pre)`. -/
def pyStartsWith (s pre : String) : Bool :=
  List.isPrefixOf pre.data s.data

/-- Python `str.endswith(suf)`. -/
def pyEndsWith (s suf : String) : Bool :=
  List.isSuffixOf suf.data s.data

/-- Helper for `pySplit`: walk the characters, accumulating the current
token (reversed), emitting it whenever a whitespace run begins. -/
def pySplitAux : List Char → List Char → List String
  | [], [] => []
  | [], acc => [String.mk acc.reverse]
  | c :: cs, acc =>
      if isPyWs c then
        match acc with
        | [] => pySplitAux cs []
        | _ => String.mk acc.reverse :: pySplitAux cs []
      else pySplitAux cs (c :: acc)

/-- Python `str.split()` (split on whitespace runs, dropping empty tokens). -/
def pySplit (s : String) : List String :=
  pySplitAux s.data []

/-- Python `str.capitalize()`: first character upper-cased, rest lower-cased. -/
def pyCapitalize (s : String) : String :=
  match s.data with
  | [] => ""
  | c :: cs => String.mk (c.toUpper :: cs.map Char.toLower)

/-! ## Data model: JSON values and ProcessingResult -/

/-- A parsed JSON value, the shape returned by Python's `json.loads`.
Booleans are kept separate from numbers, but note that Python's
`isinstance(True, int)` is `True`, which `isPyNumber` reflects. -/
inductive JsonValue where
  | null
  | bool (b : Bool)
  | num (q : ℚ)
  | str (s : String)
  | arr (elems : List JsonValue)
  | obj (fields : List (String × JsonValue))

/-- Container for processing results and errors
(`ProcessingResult` dataclass, receipt_processor.py lines 12-18). -/
structure ProcessingResult where
  success : Bool
  data : Option JsonValue := none
  error : Option String := none
  raw_response : Option String := none

/-! ## Stage agents

Each agent's backend call (`self.client.chat.completions.create`, plus the
image read in `encode_image`) is modelled as an oracle returning either the
assistant message content or an exception message. -/

/-- Embeds `TranscriptionAgent.process` (receipt_processor.py lines 32-66). -/
def TranscriptionAgent.process (backend : String → Except String String)
    (image_path : String) : ProcessingResult :=
  match backend image_path with
  | .ok content => { success := true, data := some (.str (pyStrip content)) }
  | .error e => { success := false, error := some ("Transcription failed: " ++ e) }

/-- Embeds `TextMergingAgent.process` (receipt_processor.py lines 71-107). -/
def TextMergingAgent.process (backend : List String → Except String String)
    (transcriptions : List String) : ProcessingResult :=
  match backend transcriptions with
  | .ok content => { success := true, data := some (.str (pyStrip content)) }
  | .error e => { success := false, error := some ("Text merging failed: " ++ e) }

/-- Embeds `QualityCheckAgent.process` (receipt_processor.py lines 112-158).
On a confirmed (`"VERIFIED: "`-prefixed) response the original
`transcribed_text` is returned; otherwise the stripped response is. -/
def QualityCheckAgent.process (backend : String → String → Except String String)
    (image_path : String) (transcribed_text : String) : ProcessingResult :=
  match backend image_path transcribed_text with
  | .ok content =>
      let verified_text := pyStrip content
      if pyStartsWith verified_text "VERIFIED: " then
        { success := true, data := some (.str transcribed_text) }
      else
        { success := true, data := some (.str verified_text) }
  | .error e => { success := false, error := some ("Quality check failed: " ++ e) }

/-- Markdown-fence cleanup applied to the structuring backend's response
(receipt_processor.py lines 227-234): strip, and when the text both starts
and ends with a code fence, keep the segment between the first two fences,
drop a leading `"json\n"`, and strip again. -/
def cleanupMarkdown (content : String) : String :=
  let result := pyStrip content
  if pyStartsWith result "```" && pyEndsWith result "```" then
    let r1 := (result.splitOn "```").getD 1 ""
    let r2 := if pyStartsWith r1 "json\n" then r1.drop 5 else r1
    pyStrip r2
  else result

/-- Python dict `.get`: first matching key of the parsed object. -/
def lookupField (fields : List (String × JsonValue)) (key : String) : Option JsonValue :=
  (fields.find? (fun p => p.1 = key)).map (fun p => p.2)

/-- Models `isinstance(x, (int, float))` on a parsed JSON value.  Python booleans
are `int` instances, so `true`/`false` also pass. -/
def isPyNumber : Option JsonValue → Bool
  | some (.num _) => true
  | some (.bool _) => true
  | _ => false

/-- The post-parse validation of `StructuredDataAgent.process`
(receipt_processor.py lines 239-243): `parsed_data.get('totals', {}).get(...)`
must be numeric for `subtotal` and `total`.  A `.get` on a non-dict raises
`AttributeError`; a non-numeric value raises `ValueError`.  Either exception
is caught by the stage's outer handler. -/
def validateTotals (parsed_data : JsonValue) : Except String Unit :=
  match parsed_data with
  | .obj fields =>
      match (lookupField fields "totals").getD (.obj []) with
      | .obj tfields =>
          if isPyNumber (lookupField tfields "subtotal") then
            if isPyNumber (lookupField tfields "total") then .ok ()
            else .error "Total must be a number"
          else .error "Subtotal must be a number"
      | _ => .error "AttributeError: object has no attribute get"
  | _ => .error "AttributeError: object has no attribute get"

/-- Embeds `StructuredDataAgent.process` (receipt_processor.py lines 163-256).
`jsonParse` models `json.loads` (`none` = `json.JSONDecodeError`). -/
def StructuredDataAgent.process (backend : String → Except String String)
    (jsonParse : String → Option JsonValue) (text : String) : ProcessingResult :=
  match backend text with
  | .error e =>
      { success := false, error := some ("Structured data formatting failed: " ++ e) }
  | .ok content =>
      let result := cleanupMarkdown content
      match jsonParse result with
      | none =>
          { success := false, error := some "Failed to parse JSON response",
            raw_response := some result }
      | some parsed_data =>
          match validateTotals parsed_data with
          | .error msg =>
              { success := false,
                error := some ("Structured data formatting failed: " ++ msg) }
          | .ok _ => { success := true, data := some parsed_data }

/-! ## Pipeline orchestrator -/

/-- The four backend oracles plus the JSON parser used by one
`OptimizedReceiptProcessor`. -/
structure Backends where
  transcribeB : String → Except String String
  mergeB : List String → Except String String
  checkB : String → String → Except String String
  structureB : String → Except String String
  jsonParse : String → Option JsonValue

/-- Reading `result.data` where the pipeline knows it is a text payload
(Python simply passes the dynamically-typed `result.data` along). -/
def dataStr (r : ProcessingResult) : String :=
  match r.data with
  | some (.str s) => s
  | _ => ""

/-- Step 1 of `process_receipt_folder`: transcribe every image, collecting
the successful transcriptions in order and dropping failures
(receipt_processor.py lines 279-286). -/
def pipelineTranscriptions (b : Backends) (image_paths : List String) : List String :=
  image_paths.foldl
    (fun acc p =>
      let r := TranscriptionAgent.process b.transcribeB p
      if r.success then acc ++ [dataStr r] else acc)
    []

/-- Steps 3-4 of `process_receipt_folder`: quality check against the first
image path, then structuring; a failing check is returned as-is, and the
structuring result is returned whether or not it succeeded
(receipt_processor.py lines 301-313). -/
def afterMerge (b : Backends) (image_paths : List String)
    (text_for_checking : String) : ProcessingResult :=
  let checked := QualityCheckAgent.process b.checkB (image_paths.headD "") text_for_checking
  if checked.success then
    StructuredDataAgent.process b.structureB b.jsonParse (dataStr checked)
  else checked

/-- Step 2 of `process_receipt_folder`: merge when more than one successful
transcription exists, otherwise pass the single transcription through
(receipt_processor.py lines 291-299). -/
def stepsAfterTranscription (b : Backends) (image_paths : List String)
    (transcriptions : List String) : ProcessingResult :=
  if transcriptions.length > 1 then
    let merged := TextMergingAgent.process b.mergeB transcriptions
    if merged.success then afterMerge b image_paths (dataStr merged)
    else merged
  else afterMerge b image_paths (transcriptions.headD "")

/-- Embeds `OptimizedReceiptProcessor.process_receipt_folder`
(receipt_processor.py lines 267-316); `image_paths` models the folder's
glob result. -/
def process_receipt_folder (b : Backends) (image_paths : List String) : ProcessingResult :=
  if image_paths.isEmpty then
    { success := false, error := some "No receipt images found in folder" }
  else
    let transcriptions := pipelineTranscriptions b image_paths
    if transcriptions.isEmpty then
      { success := false, error := some "No successful transcriptions" }
    else stepsAfterTranscription b image_paths transcriptions

/-! ## Store-name normalizer (store_utils.py)

The similarity primitive `fuzz.token_sort_ratio` from the external `thefuzz`
library preprocesses both strings (lower-case, non-alphanumeric characters
replaced by spaces, strip), sorts the whitespace tokens alphabetically and
rejoins them, then applies an edit-distance-based similarity scorer to the
two processed strings.  The preprocessing and token sorting are embedded;
the final edit-distance scorer is an oracle `scorer` about which only its
documented range behaviour (identical strings score 100, every score is at
most 100) is assumed where needed. -/

/-- Lexicographic code-point order on character lists, Python's string
comparison. -/
def charListLe : List Char → List Char → Bool
  | [], _ => true
  | _ :: _, [] => false
  | a :: as, b :: bs =>
      if a.toNat = b.toNat then charListLe as bs else a.toNat < b.toNat

/-- Python's `s1 <= s2` on strings (code-point lexicographic). -/
def pyStrLe (a b : String) : Bool :=
  charListLe a.data b.data

/-- An insertion sort on strings, `sorted()` over the token list (token
order is total, and tokens that compare equal are identical strings, so any
correct sort yields Python's result). -/
def insertSorted (x : String) : List String → List String
  | [] => [x]
  | y :: ys => if pyStrLe x y then x :: y :: ys else y :: insertSorted x ys

/-- Sort a token list as Python's `sorted()` does. -/
def sortTokens (l : List String) : List String :=
  l.foldr insertSorted []

/-- Models `thefuzz.utils.full_process`: replace non-word characters with spaces,
lower-case, strip. -/
def fullProcess (s : String) : String :=
  pyStrip (String.mk (s.data.map
    (fun c => if c.isAlphanum || c = '_' then c.toLower else ' ')))

/-- Models the thefuzz process-and-sort step: full-process, split, sort tokens, rejoin. -/
def processAndSort (s : String) : String :=
  " ".intercalate (sortTokens (pySplit (fullProcess s)))

/-- Models `fuzz.token_sort_ratio` with the edit-distance similarity left as the
oracle `scorer`. -/
def tokenSortScore (scorer : String → String → Nat) (s1 s2 : String) : Nat :=
  scorer (processAndSort s1) (processAndSort s2)

/-- The hard-coded alias table `store_maps` (store_utils.py lines 34-37).
Dictionary iteration order in Python 3 is insertion order. -/
def store_maps : List (String × List String) :=
  [("Whole Foods Market",
      ["Whole Foods", "WFM", "Whole Foods Mkt", "WF Market"]),
   ("Lunardi\x27s",
      ["Lunardis", "Lunardi", "Lunardi\x27s Market"])]

/-- The direct-mapping check (store_utils.py lines 43-45): the first canonical
name whose variant list contains the cleaned input, or which equals it. -/
def directLookup (maps : List (String × List String)) (store : String) : Option String :=
  maps.findSome? (fun p => if store ∈ p.2 || store = p.1 then some p.1 else none)

/-- The fuzzy-matching loop's comparison sequence (store_utils.py lines
51-63): for each map entry, first the canonical name itself, then each
variant, every hit recorded against the canonical name. -/
def fuzzyCandidates (maps : List (String × List String)) : List (String × String) :=
  (maps.map (fun p => (p.1, p.1) :: p.2.map (fun v => (p.1, v)))).flatten

/-- The `best_score` / `best_match` fold (store_utils.py lines 48-63);
a candidate only replaces the current best on a strictly greater score. -/
def bestFuzzy (scorer : String → String → Nat) (store : String)
    (cands : List (String × String)) : Nat × Option String :=
  cands.foldl
    (fun acc c =>
      let score := tokenSortScore scorer store c.2
      if score > acc.1 then (score, some c.1) else acc)
    (0, none)

/-- Embeds `normalize_store_name` (store_utils.py lines 19-70) with the alias table
and the edit-distance scorer as parameters; `normalize_store_name` below
fixes the table to the source's hard-coded `store_maps`. -/
def normalizeStoreNameWith (maps : List (String × List String))
    (scorer : String → String → Nat) (store_name : String) (threshold : Int) :
    Option String :=
  if store_name = "" then none
  else
    let store := pyStrip store_name
    match directLookup maps store with
    | some normalized_name => some normalized_name
    | none =>
        let best := bestFuzzy scorer store (fuzzyCandidates maps)
        if (best.1 : Int) ≥ threshold then best.2
        else some (" ".intercalate ((pySplit store).map pyCapitalize))

/-- Embeds `normalize_store_name` exactly as in the source (hard-coded alias table,
default threshold 80). -/
def normalize_store_name (scorer : String → String → Nat) (store_name : String)
    (threshold : Int := 80) : Option String :=
  normalizeStoreNameWith store_maps scorer store_name threshold

/-- Title-casing used on the no-match path (store_utils.py line 70). -/
def titleCase (s : String) : String :=
  " ".intercalate ((pySplit s).map pyCapitalize)

/-! ## Spec-side predicates and concrete scenario data -/

/-- The ProcessingResult envelope invariant stated by the spec: `data` is
defined iff `success`, `error` is defined iff not `success`, and exactly one
of the two is defined. -/
def resultOk (r : ProcessingResult) : Prop :=
  r.data.isSome = r.success ∧ r.error.isSome = (!r.success) ∧
    r.data.isSome ≠ r.error.isSome

/-- Spec-side predicate (from the spec's wording, not the source): exactly
one of an item's `quantity` / `weight` is non-null (a missing key counts as
null, as it does for Python's `dict.get`). -/
def itemExclusive (item : JsonValue) : Bool :=
  match item with
  | .obj fields =>
      (match lookupField fields "quantity" with
       | some .null => true
       | none => true
       | _ => false)
      != (match lookupField fields "weight" with
          | some .null => true
          | none => true
          | _ => false)
  | _ => false

/-- Spec-side predicate: every entry of a structured receipt's `items` array
satisfies the quantity/weight exclusivity contract. -/
def itemsExclusive (parsed : JsonValue) : Bool :=
  match parsed with
  | .obj fields =>
      match lookupField fields "items" with
      | some (.arr items) => items.all itemExclusive
      | _ => false
  | _ => false

/-- A minimal structured receipt passing the stage's totals validation. -/
def okTotals : JsonValue :=
  .obj [("totals", .obj [("subtotal", .num 5), ("total", .num 5)])]

/-- A structured receipt whose single item has BOTH `quantity` and `weight`
non-null, violating the spec's exclusivity contract, while its totals are
well-typed. -/
def violReceipt : JsonValue :=
  .obj [("totals", .obj [("subtotal", .num 5), ("total", .num 5)]),
        ("items", .arr [.obj [("quantity", .num 2), ("weight", .num 3),
                              ("unit", .str "each")]])]

/-- The JSON text whose parse is `violReceipt`. -/
def violText : String :=
  "\x7b\"totals\": \x7b\"subtotal\": 5, \"total\": 5\x7d, \"items\": [\x7b\"quantity\": 2, \"weight\": 3, \"unit\": \"each\"\x7d]\x7d"

/-- Backends for the C2 scenario: transcription of image "a" fails, of any
other image succeeds, and every later stage succeeds. -/
def cexBackends2 : Backends :=
  { transcribeB := fun p => if p = "a" then .error "io failure" else .ok "TEXTB"
    mergeB := fun _ => .ok "MERGED"
    checkB := fun _ t => .ok t
    structureB := fun t => .ok t
    jsonParse := fun s => if s = "TEXTB" then some okTotals else none }

/-- Backends for the C4 scenario: of three images only "img2" fails to
transcribe; merge, quality check (confirming) and structuring succeed. -/
def cexBackends4 : Backends :=
  { transcribeB := fun p => if p = "img2" then .error "blurred image" else .ok ("TEXT " ++ p)
    mergeB := fun _ => .ok "MERGEDTEXT"
    checkB := fun _ t => .ok ("VERIFIED: " ++ t)
    structureB := fun t => .ok t
    jsonParse := fun s => if s = "MERGEDTEXT" then some okTotals else none }

/-- Backends for the C5 scenario: two images of which one fails to
transcribe, a merge backend that would FAIL if it were ever called, and
succeeding later stages. -/
def cexBackends5 : Backends :=
  { transcribeB := fun p => if p = "a" then .error "io failure" else .ok "HELLO"
    mergeB := fun _ => .error "merge backend down"
    checkB := fun _ t => .ok t
    structureB := fun t => .ok t
    jsonParse := fun s => if s = "HELLO" then some okTotals else none }

/-- Simple all-succeeding backends used to witness universally quantified
theorems at a concrete point. -/
def wBackends : Backends :=
  { transcribeB := fun _ => .ok "T"
    mergeB := fun _ => .error "m"
    checkB := fun _ t => .ok t
    structureB := fun t => .ok t
    jsonParse := fun _ => none }

/-- Backends whose transcription always fails. -/
def wBackendsFail : Backends :=
  { transcribeB := fun _ => .error "service unavailable"
    mergeB := fun _ => .ok "M"
    checkB := fun _ t => .ok t
    structureB := fun t => .ok t
    jsonParse := fun _ => none }

/-! ## Theorems -/

/-- Every transcription result satisfies the envelope invariant. -/
theorem resultOk_transcription (backend : String → Except String String) (p : String) :
    resultOk (TranscriptionAgent.process backend p) := by
  unfold resultOk TranscriptionAgent.process
  cases backend p <;> simp

/-- Every merge result satisfies the envelope invariant. -/
theorem resultOk_merge (backend : List String → Except String String) (ts : List String) :
    resultOk (TextMergingAgent.process backend ts) := by
  unfold resultOk TextMergingAgent.process
  cases backend ts <;> simp

/-- Every quality-check result satisfies the envelope invariant. -/
theorem resultOk_check (backend : String → String → Except String String)
    (p text : String) : resultOk (QualityCheckAgent.process backend p text) := by
  unfold resultOk QualityCheckAgent.process
  cases backend p text
  · simp
  · dsimp only
    split <;> simp

/-- Every structuring result satisfies the envelope invariant. -/
theorem resultOk_structured (backend : String → Except String String)
    (jsonParse : String → Option JsonValue) (text : String) :
    resultOk (StructuredDataAgent.process backend jsonParse text) := by
  unfold resultOk StructuredDataAgent.process
  cases backend text
  · simp
  · dsimp only
    split
    · simp
    · split <;> simp

/-- Every orchestrator result satisfies the envelope invariant. -/
theorem resultOk_pipeline (b : Backends) (image_paths : List String) :
    resultOk (process_receipt_folder b image_paths) := by
  unfold process_receipt_folder
  split
  · exact ⟨by simp, by simp, by simp⟩
  · dsimp only
    split
    · exact ⟨by simp, by simp, by simp⟩
    · unfold stepsAfterTranscription
      split
      · dsimp only
        split
        · unfold afterMerge
          dsimp only
          split
          · exact resultOk_structured _ _ _
          · exact resultOk_check _ _ _
        · exact resultOk_merge _ _
      · unfold afterMerge
        dsimp only
        split
        · exact resultOk_structured _ _ _
        · exact resultOk_check _ _ _

/-- Claim C8: every ProcessingResult constructed by any stage or by the
orchestrator has `data` defined iff `success` is true and `error` defined
iff `success` is false — exactly one of the two, never both, never
neither. -/
theorem C8_envelope_invariant :
    ∀ (b : Backends) (image_paths : List String) (p text stext : String)
      (ts : List String),
      resultOk (TranscriptionAgent.process b.transcribeB p) ∧
      resultOk (TextMergingAgent.process b.mergeB ts) ∧
      resultOk (QualityCheckAgent.process b.checkB p text) ∧
      resultOk (StructuredDataAgent.process b.structureB b.jsonParse stext) ∧
      resultOk (process_receipt_folder b image_paths) :=
  fun b image_paths p text stext ts =>
    ⟨resultOk_transcription _ _, resultOk_merge _ _, resultOk_check _ _ _,
     resultOk_structured _ _ _, resultOk_pipeline b image_paths⟩

/-- With a non-empty folder and zero successful transcriptions the pipeline
aborts with the dedicated error. -/
theorem pipeline_no_success (b : Backends) (image_paths : List String)
    (hne : image_paths ≠ [])
    (hz : pipelineTranscriptions b image_paths = []) :
    process_receipt_folder b image_paths =
      { success := false, error := some "No successful transcriptions" } := by
  unfold process_receipt_folder
  rw [if_neg (by simpa using hne)]
  dsimp only
  rw [if_pos (by simp [hz])]

/-- With a non-empty folder and at least one successful transcription the
pipeline proceeds to the post-transcription steps. -/
theorem pipeline_after (b : Backends) (image_paths : List String)
    (hne : image_paths ≠ [])
    (hts : pipelineTranscriptions b image_paths ≠ []) :
    process_receipt_folder b image_paths =
      stepsAfterTranscription b image_paths (pipelineTranscriptions b image_paths) := by
  unfold process_receipt_folder
  rw [if_neg (by simpa using hne)]
  dsimp only
  rw [if_neg (by simpa using hts)]

/-- With at most one successful transcription, merging is skipped and the
single transcription goes straight to the quality check. -/
theorem steps_le_one (b : Backends) (image_paths : List String)
    (ts : List String) (hlen : ts.length ≤ 1) :
    stepsAfterTranscription b image_paths ts =
      afterMerge b image_paths (ts.headD "") := by
  unfold stepsAfterTranscription
  rw [if_neg (by omega)]

/-- With two or more successful transcriptions, the merge stage runs and
its outcome drives the rest of the pipeline. -/
theorem steps_gt_one (b : Backends) (image_paths : List String)
    (ts : List String) (hlen : ts.length > 1) :
    stepsAfterTranscription b image_paths ts =
      (if (TextMergingAgent.process b.mergeB ts).success then
        afterMerge b image_paths (dataStr (TextMergingAgent.process b.mergeB ts))
       else TextMergingAgent.process b.mergeB ts) := by
  unfold stepsAfterTranscription
  rw [if_pos hlen]

/-- Claim C1 counterexample: the structuring backend returns a parseable
receipt whose single item has both `quantity` and `weight` non-null; the
stage neither rejects nor flags it — it returns `success=true` with the
violating data. -/
theorem C1_counterexample :
    StructuredDataAgent.process (fun _ => .ok violText)
        (fun s => if s = violText then some violReceipt else none) "receipt text" =
      { success := true, data := some violReceipt } ∧
    itemsExclusive violReceipt = false :=
  ⟨rfl, rfl⟩

/-- Claim C1 (amended): the Structuring Stage validates only that
`totals.subtotal` and `totals.total` are numbers; it does not enforce
quantity/weight mutual exclusivity, so any parseable backend response that
violates it but passes the totals check is returned with `success=true` and
the violating data. -/
theorem C1_no_exclusivity_enforcement
    (backend : String → Except String String)
    (jsonParse : String → Option JsonValue) (text content : String)
    (parsed : JsonValue)
    (hb : backend text = .ok content)
    (hp : jsonParse (cleanupMarkdown content) = some parsed)
    (hviol : itemsExclusive parsed = false)
    (hv : validateTotals parsed = .ok ()) :
    StructuredDataAgent.process backend jsonParse text =
      { success := true, data := some parsed } := by
  unfold StructuredDataAgent.process
  rw [hb]
  dsimp only
  rw [hp]
  dsimp only
  rw [hv]

/-- Witness for the amended C1 at the concrete violating receipt. -/
theorem C1_no_exclusivity_enforcement_witness :
    StructuredDataAgent.process (fun _ => .ok violText)
        (fun s => if s = violText then some violReceipt else none)
        "receipt text" =
      { success := true, data := some violReceipt } :=
  C1_no_exclusivity_enforcement (fun _ => .ok violText)
    (fun s => if s = violText then some violReceipt else none)
    "receipt text" violText violReceipt rfl (by rfl) (by rfl) (by rfl)

/-- Claim C7 counterexample: the structuring backend returns the non-JSON
text "not json\n"; the stage reports a parse failure but its `raw_response`
is the cleaned text "not json", not the exact text the backend returned. -/
theorem C7_counterexample :
    StructuredDataAgent.process (fun _ => .ok "not json\n") (fun _ => none)
        "receipt text" =
      { success := false, error := some "Failed to parse JSON response",
        raw_response := some "not json" } ∧
    "not json" ≠ "not json\n" :=
  ⟨rfl, by decide⟩

/-- Claim C7 (amended): when the structuring backend's response, after
whitespace stripping and markdown-fence cleanup, is not parseable as JSON,
the stage returns `success=false` with the parse-failure error and
`raw_response` equal to that cleaned text. -/
theorem C7_parse_failure
    (backend : String → Except String String)
    (jsonParse : String → Option JsonValue) (text content : String)
    (hb : backend text = .ok content)
    (hp : jsonParse (cleanupMarkdown content) = none) :
    StructuredDataAgent.process backend jsonParse text =
      { success := false, error := some "Failed to parse JSON response",
        raw_response := some (cleanupMarkdown content) } := by
  unfold StructuredDataAgent.process
  rw [hb]
  dsimp only
  rw [hp]

/-- Witness for the amended C7 at a concrete non-JSON response. -/
theorem C7_parse_failure_witness :
    StructuredDataAgent.process (fun _ => .ok "not json\n") (fun _ => none)
        "receipt text" =
      { success := false, error := some "Failed to parse JSON response",
        raw_response := some (cleanupMarkdown "not json\n") } :=
  C7_parse_failure (fun _ => .ok "not json\n") (fun _ => none)
    "receipt text" "not json\n" rfl rfl

/-- Claim C6 counterexample: the quality-check backend responds
"corrected text\n" (no sentinel); the stage returns the stripped text
"corrected text" as data, not the backend's response verbatim. -/
theorem C6_counterexample :
    QualityCheckAgent.process (fun _ _ => .ok "corrected text\n")
        "img.jpg" "candidate text" =
      { success := true, data := some (.str "corrected text") } ∧
    "corrected text" ≠ "corrected text\n" :=
  ⟨rfl, by decide⟩

/-- Claim C6 (amended): the quality-check stage strips the backend response
first; if the stripped response begins with "VERIFIED: " the stage returns
`success=true` with the original candidate text as data, otherwise it
returns `success=true` with the stripped response as data. -/
theorem C6_quality_check_normalization
    (backend : String → String → Except String String)
    (image_path text content : String)
    (hb : backend image_path text = .ok content) :
    QualityCheckAgent.process backend image_path text =
      (if pyStartsWith (pyStrip content) "VERIFIED: " then
        { success := true, data := some (.str text) }
       else
        { success := true, data := some (.str (pyStrip content)) }) := by
  unfold QualityCheckAgent.process
  rw [hb]

/-- Witness for the amended C6 at a concrete confirming response. -/
theorem C6_quality_check_normalization_witness :
    QualityCheckAgent.process (fun _ _ => .ok "VERIFIED: subtotal 5 total 5")
        "img.jpg" "subtotal 5 total 5" =
      (if pyStartsWith (pyStrip "VERIFIED: subtotal 5 total 5") "VERIFIED: " then
        { success := true, data := some (.str "subtotal 5 total 5") }
       else
        { success := true,
          data := some (.str (pyStrip "VERIFIED: subtotal 5 total 5")) }) :=
  C6_quality_check_normalization (fun _ _ => .ok "VERIFIED: subtotal 5 total 5")
    "img.jpg" "subtotal 5 total 5" "VERIFIED: subtotal 5 total 5" rfl

/-- Claim C2 counterexample: with two images the transcription of "a"
fails (a stage result with `success=false`), yet every later stage still
executes and the pipeline returns a successful result, not the failing
transcription result. -/
theorem C2_counterexample :
    TranscriptionAgent.process cexBackends2.transcribeB "a" =
      { success := false, error := some "Transcription failed: io failure" } ∧
    process_receipt_folder cexBackends2 ["a", "b"] =
      { success := true, data := some okTotals } :=
  ⟨rfl, rfl⟩

/-- Claim C2 (amended): once at least one transcription succeeded, a
failing result of the merge stage or of the quality-check stage
short-circuits the pipeline and is returned verbatim, and otherwise the
structuring stage's result is returned as the pipeline result; per-image
transcription failures do NOT short-circuit (only zero successful
transcriptions abort, with a fresh error). -/
theorem C2_short_circuit
    (b : Backends) (image_paths : List String) (text_for_checking : String)
    (hne : image_paths ≠ [])
    (hts : pipelineTranscriptions b image_paths ≠ []) :
    ((pipelineTranscriptions b image_paths).length > 1 →
      (TextMergingAgent.process b.mergeB (pipelineTranscriptions b image_paths)).success = false →
        process_receipt_folder b image_paths =
          TextMergingAgent.process b.mergeB (pipelineTranscriptions b image_paths)) ∧
    ((QualityCheckAgent.process b.checkB (image_paths.headD "") text_for_checking).success = false →
        afterMerge b image_paths text_for_checking =
          QualityCheckAgent.process b.checkB (image_paths.headD "") text_for_checking) ∧
    ((QualityCheckAgent.process b.checkB (image_paths.headD "") text_for_checking).success = true →
        afterMerge b image_paths text_for_checking =
          StructuredDataAgent.process b.structureB b.jsonParse
            (dataStr (QualityCheckAgent.process b.checkB (image_paths.headD "") text_for_checking))) ∧
    ((pipelineTranscriptions b image_paths).length > 1 →
      (TextMergingAgent.process b.mergeB (pipelineTranscriptions b image_paths)).success = true →
        process_receipt_folder b image_paths =
          afterMerge b image_paths
            (dataStr (TextMergingAgent.process b.mergeB (pipelineTranscriptions b image_paths)))) ∧
    (¬ (pipelineTranscriptions b image_paths).length > 1 →
        process_receipt_folder b image_paths =
          afterMerge b image_paths ((pipelineTranscriptions b image_paths).headD "")) := by
  refine ⟨?_, ?_, ?_, ?_, ?_⟩
  · intro hlen hfail
    rw [pipeline_after b image_paths hne hts, steps_gt_one b image_paths _ hlen,
      if_neg (by simp only [hfail, Bool.false_eq_true, not_false_eq_true])]
  · intro hfail
    unfold afterMerge
    dsimp only
    rw [if_neg (by simp only [hfail, Bool.false_eq_true, not_false_eq_true])]
  · intro hok
    unfold afterMerge
    dsimp only
    rw [if_pos hok]
  · intro hlen hokm
    rw [pipeline_after b image_paths hne hts, steps_gt_one b image_paths _ hlen,
      if_pos hokm]
  · intro hlen
    rw [pipeline_after b image_paths hne hts, steps_le_one b image_paths _ (by omega)]

/-- Witness for the amended C2: with a failing merge backend and two
successful transcriptions the pipeline returns the merge failure
verbatim. -/
theorem C2_short_circuit_witness :
    process_receipt_folder wBackends ["x", "y"] =
      TextMergingAgent.process wBackends.mergeB
        (pipelineTranscriptions wBackends ["x", "y"]) :=
  (C2_short_circuit wBackends ["x", "y"] "T" (by decide) (by decide)).1
    (by decide) (by rfl)

/-- Claim C4: individual image transcription failures are tolerated (the
failed transcription is dropped); the pipeline fails at the transcription
step exactly when zero images transcribe successfully, and with three
images of which one fails plus succeeding later stages it reports
`success=true`. -/
theorem C4_partial_transcription_tolerance :
    (∀ (b : Backends) (image_paths : List String),
        image_paths ≠ [] →
        pipelineTranscriptions b image_paths = [] →
        process_receipt_folder b image_paths =
          { success := false, error := some "No successful transcriptions" }) ∧
    (∀ (b : Backends) (image_paths : List String),
        image_paths ≠ [] →
        pipelineTranscriptions b image_paths ≠ [] →
        process_receipt_folder b image_paths =
          stepsAfterTranscription b image_paths (pipelineTranscriptions b image_paths)) ∧
    (TranscriptionAgent.process cexBackends4.transcribeB "img2").success = false ∧
    process_receipt_folder cexBackends4 ["img1", "img2", "img3"] =
      { success := true, data := some okTotals } := by
  exact ⟨pipeline_no_success, pipeline_after, rfl, rfl⟩

/-- Witness for C4: with an always-failing transcription backend the
pipeline fails with the zero-successes error. -/
theorem C4_partial_transcription_tolerance_witness :
    process_receipt_folder wBackendsFail ["x"] =
      { success := false, error := some "No successful transcriptions" } :=
  C4_partial_transcription_tolerance.1 wBackendsFail ["x"] (by decide) (by decide)

/-- Claim C5 counterexample: two images are processed, the merge backend
would fail were it invoked, yet the pipeline succeeds — so the merge stage
is NOT invoked "exactly when more than one image is processed": with two
images but a single successful transcription, merge is skipped. -/
theorem C5_counterexample :
    (TextMergingAgent.process cexBackends5.mergeB ["HELLO"]).success = false ∧
    process_receipt_folder cexBackends5 ["a", "b"] =
      { success := true, data := some okTotals } :=
  ⟨rfl, rfl⟩

/-- Claim C5 (amended): the merge stage runs iff at least 2 SUCCESSFUL
transcriptions exist.  With at most one successful transcription the
pipeline result does not depend on the merge backend at all and the single
transcription is passed unchanged to the quality-check stage; with two or
more, the pipeline's tail is determined by the merge invocation. -/
theorem C5_merge_iff_two_successful
    (b : Backends) (mB mB' : List String → Except String String)
    (image_paths : List String) (hne : image_paths ≠ []) :
    ((pipelineTranscriptions b image_paths).length ≤ 1 →
        process_receipt_folder { b with mergeB := mB } image_paths =
          process_receipt_folder { b with mergeB := mB' } image_paths) ∧
    (pipelineTranscriptions b image_paths ≠ [] →
      (pipelineTranscriptions b image_paths).length ≤ 1 →
        process_receipt_folder b image_paths =
          afterMerge b image_paths ((pipelineTranscriptions b image_paths).headD "")) ∧
    ((pipelineTranscriptions b image_paths).length > 1 →
        process_receipt_folder b image_paths =
          (if (TextMergingAgent.process b.mergeB (pipelineTranscriptions b image_paths)).success then
            afterMerge b image_paths
              (dataStr (TextMergingAgent.process b.mergeB (pipelineTranscriptions b image_paths)))
           else TextMergingAgent.process b.mergeB (pipelineTranscriptions b image_paths))) := by
  refine ⟨?_, ?_, ?_⟩
  · intro hlen
    by_cases hz : pipelineTranscriptions b image_paths = []
    · rw [pipeline_no_success { b with mergeB := mB } image_paths hne hz,
        pipeline_no_success { b with mergeB := mB' } image_paths hne hz]
    · rw [pipeline_after { b with mergeB := mB } image_paths hne hz,
        pipeline_after { b with mergeB := mB' } image_paths hne hz,
        steps_le_one { b with mergeB := mB } image_paths
          (pipelineTranscriptions { b with mergeB := mB } image_paths) (by exact hlen),
        steps_le_one { b with mergeB := mB' } image_paths
          (pipelineTranscriptions { b with mergeB := mB' } image_paths) (by exact hlen)]
      rfl
  · intro hts hlen
    rw [pipeline_after b image_paths hne hts, steps_le_one b image_paths _ hlen]
  · intro hlen
    have hts : pipelineTranscriptions b image_paths ≠ [] := by
      intro h
      rw [h] at hlen
      simp at hlen
    rw [pipeline_after b image_paths hne hts, steps_gt_one b image_paths _ hlen]

/-- Witness for the amended C5: with a single successful transcription the
pipeline result is identical under two different merge backends. -/
theorem C5_merge_iff_two_successful_witness :
    process_receipt_folder { cexBackends5 with mergeB := fun _ => .ok "M1" } ["a", "b"] =
      process_receipt_folder { cexBackends5 with mergeB := fun _ => .error "M2" } ["a", "b"] :=
  (C5_merge_iff_two_successful cexBackends5 (fun _ => .ok "M1")
    (fun _ => .error "M2") ["a", "b"] (by decide)).1 (by decide)

/-- Claim C3: with an empty known-name collection, `normalize_store_name`
does no similarity matching (the scorer is arbitrary and unused) and
returns the cleaned input with every whitespace token title-cased; in
particular "whole foods mkt" yields "Whole Foods Mkt". -/
theorem C3_empty_known_set
    (scorer : String → String → Nat) (store_name : String)
    (hne : store_name ≠ "") :
    normalizeStoreNameWith [] scorer store_name 80 =
      some (titleCase (pyStrip store_name)) ∧
    normalizeStoreNameWith [] scorer "whole foods mkt" 80 = some "Whole Foods Mkt" := by
  constructor
  · unfold normalizeStoreNameWith
    rw [if_neg hne]
    rfl
  · rfl

/-- Witness for C3 at the concrete input "whole foods mkt". -/
theorem C3_empty_known_set_witness :
    normalizeStoreNameWith [] (fun _ _ => 0) "whole foods mkt" 80 =
      some (titleCase (pyStrip "whole foods mkt")) ∧
    normalizeStoreNameWith [] (fun _ _ => 0) "whole foods mkt" 80 =
      some "Whole Foods Mkt" :=
  C3_empty_known_set (fun _ _ => 0) "whole foods mkt" (by decide)

/-- The best-score fold never moves off a current best that no remaining
candidate strictly beats. -/
theorem bestFuzzy_foldl_stays (scorer : String → String → Nat) (store : String)
    (l : List (String × String)) (s : Nat) (m : Option String)
    (hs : ∀ c ∈ l, tokenSortScore scorer store c.2 ≤ s) :
    l.foldl
      (fun acc c =>
        let score := tokenSortScore scorer store c.2
        if score > acc.1 then (score, some c.1) else acc)
      (s, m) = (s, m) := by
  induction l with
  | nil => rfl
  | cons c cs ih =>
      have h1 := hs c (List.mem_cons_self c cs)
      simp only [List.foldl_cons]
      dsimp only
      rw [if_neg (by omega)]
      exact ih (fun d hd => hs d (List.mem_cons_of_mem c hd))

/-- If the first fuzzy candidate scores 100 and no candidate can exceed
100, the best match is the first candidate's canonical name. -/
theorem bestFuzzy_first_hits (scorer : String → String → Nat) (store : String)
    (n t : String) (rest : List (String × String))
    (h1 : tokenSortScore scorer store t = 100)
    (hs : ∀ c ∈ rest, tokenSortScore scorer store c.2 ≤ 100) :
    bestFuzzy scorer store ((n, t) :: rest) = (100, some n) := by
  unfold bestFuzzy
  rw [List.foldl_cons]
  dsimp only
  rw [h1]
  rw [if_pos (by omega)]
  exact bestFuzzy_foldl_stays scorer store rest 100 (some n) hs

/-- Claim C9: token-order invariance of the fuzzy match.  For any
edit-distance scorer that gives identical strings 100 and never exceeds
100, both "Foods Whole Market" and "Whole Foods Market" normalize to the
canonical "Whole Foods Market" at the default threshold 80, because both
token-sort to "foods market whole" before scoring. -/
theorem C9_token_order_invariance
    (scorer : String → String → Nat)
    (hself : ∀ x, scorer x x = 100)
    (hmax : ∀ x y, scorer x y ≤ 100) :
    normalize_store_name scorer "Foods Whole Market" = some "Whole Foods Market" ∧
    normalize_store_name scorer "Whole Foods Market" = some "Whole Foods Market" := by
  constructor
  · unfold normalize_store_name normalizeStoreNameWith
    rw [if_neg (by decide)]
    dsimp only
    have hdl : directLookup store_maps (pyStrip "Foods Whole Market") = none := by decide
    rw [hdl]
    dsimp only
    have hbest : bestFuzzy scorer (pyStrip "Foods Whole Market") (fuzzyCandidates store_maps) =
        (100, some "Whole Foods Market") := by
      have hfc : fuzzyCandidates store_maps =
          ("Whole Foods Market", "Whole Foods Market") ::
          [("Whole Foods Market", "Whole Foods"),
           ("Whole Foods Market", "WFM"),
           ("Whole Foods Market", "Whole Foods Mkt"),
           ("Whole Foods Market", "WF Market"),
           ("Lunardi\x27s", "Lunardi\x27s"),
           ("Lunardi\x27s", "Lunardis"),
           ("Lunardi\x27s", "Lunardi"),
           ("Lunardi\x27s", "Lunardi\x27s Market")] := by decide
      rw [hfc]
      refine bestFuzzy_first_hits scorer _ _ _ _ ?_ ?_
      · calc tokenSortScore scorer (pyStrip "Foods Whole Market") "Whole Foods Market"
            = scorer "foods market whole" "foods market whole" := rfl
          _ = 100 := hself _
      · intro c hc
        fin_cases hc <;> exact hmax _ _
    rw [hbest]
    dsimp only
    rw [if_pos (by decide)]
  · rfl

/-- Witness for C9 with the concrete scorer that gives 100 to identical
strings and 0 otherwise. -/
theorem C9_token_order_invariance_witness :
    normalize_store_name (fun x y => if x = y then 100 else 0)
        "Foods Whole Market" = some "Whole Foods Market" ∧
    normalize_store_name (fun x y => if x = y then 100 else 0)
        "Whole Foods Market" = some "Whole Foods Market" :=
  C9_token_order_invariance (fun x y => if x = y then 100 else 0)
    (fun x => by simp) (fun x y => by dsimp only; split <;> omega)

/-- Claim C10: whenever the stripped input is one of the hard-coded
canonical names or alias variants, `normalize_store_name` answers through
the direct-mapping check — for EVERY threshold (even above 100) and with
the similarity scorer arbitrary and unused; "WFM", "Whole Foods Mkt" and
"Lunardis" are such aliases. -/
theorem C10_direct_mapping :
    (∀ (scorer : String → String → Nat) (threshold : Int)
        (store_name canonical : String),
        store_name ≠ "" →
        directLookup store_maps (pyStrip store_name) = some canonical →
        normalize_store_name scorer store_name threshold = some canonical) ∧
    directLookup store_maps "WFM" = some "Whole Foods Market" ∧
    directLookup store_maps "Whole Foods Mkt" = some "Whole Foods Market" ∧
    directLookup store_maps "Lunardis" = some "Lunardi\x27s" := by
  refine ⟨?_, rfl, rfl, rfl⟩
  intro scorer threshold store_name canonical hne hdl
  unfold normalize_store_name normalizeStoreNameWith
  rw [if_neg hne]
  dsimp only
  rw [hdl]

/-- Witness for C10: the alias "WFM" maps directly even at threshold 150. -/
theorem C10_direct_mapping_witness :
    normalize_store_name (fun _ _ => 0) "WFM" 150 = some "Whole Foods Market" :=
  C10_direct_mapping.1 (fun _ _ => 0) 150 "WFM" "Whole Foods Market"
    (by decide) (by rfl)

end ReceiptSage
